import Mathlib

/-!
Verification of the Events API backend (`backend/main.py`): an embedding of the
event validation rules, the DynamoDB-backed store operations, and the five
request handlers, together with theorems about the claims of the specification.

The `date` field is validated by `datetime.fromisoformat(v.replace('Z', '+00:00'))`
on CPython 3.11 (the deployed Lambda runtime), so the first part of this file
models the ISO-8601 parser of CPython 3.11's `datetime.fromisoformat`
(`Modules/_datetimemodule.c`, mirrored by `Lib/datetime.py`).
-/

namespace EventsApi

/-! ## Model of CPython 3.11 `datetime.fromisoformat` (acceptance) -/

/-- Parses exactly `k` ASCII digits from the front of `l`, accumulating their
value; fails if a non-digit is met (CPython `parse_digits`). -/
def takeDigitsAux : Nat → Nat → List Char → Option (Nat × List Char)
  | 0, acc, l => some (acc, l)
  | _ + 1, _, [] => none
  | k + 1, acc, c :: r =>
    if c.isDigit then takeDigitsAux k (acc * 10 + (c.toNat - 48)) r else none

/-- Parses exactly `k` ASCII digits, returning their value and the rest. -/
def takeDigits (k : Nat) (l : List Char) : Option (Nat × List Char) :=
  takeDigitsAux k 0 l

/-- Gregorian leap year (CPython `_is_leap`). -/
def isLeap (y : Nat) : Bool :=
  y % 4 = 0 && (y % 100 ≠ 0 || y % 400 = 0)

/-- Days in a month (CPython `_days_in_month`). -/
def daysInMonth (y m : Nat) : Nat :=
  if m = 2 then (if isLeap y then 29 else 28)
  else if m = 4 ∨ m = 6 ∨ m = 9 ∨ m = 11 then 30
  else 31

/-- Days in all years up to and excluding `y` (CPython `_days_before_year`). -/
def daysBeforeYear (y : Nat) : Nat :=
  (y - 1) * 365 + (y - 1) / 4 - (y - 1) / 100 + (y - 1) / 400

/-- Days in year `y` before month `m` (CPython `_days_before_month`). -/
def daysBeforeMonth (y m : Nat) : Nat :=
  (List.range (m - 1)).foldl (fun a i => a + daysInMonth y (i + 1)) 0

/-- Proleptic-Gregorian ordinal of a date; 0001-01-01 is ordinal 1
(CPython `_ymd2ord`). -/
def ymd2ord (y m d : Nat) : Nat :=
  daysBeforeYear y + daysBeforeMonth y m + d

/-- Splits an ordinal into a year and a day-of-year, by stepping through years
(the fuel is far above the number of representable years). -/
def ord2ymdYear : Nat → Nat → Nat → Nat × Nat
  | 0, y, n => (y, n)
  | f + 1, y, n =>
    let len := if isLeap y then 366 else 365
    if n ≤ len then (y, n) else ord2ymdYear f (y + 1) (n - len)

/-- Splits a day-of-year into a month and a day-of-month. -/
def ord2ymdMonth : Nat → Nat → Nat → Nat → Nat × Nat
  | 0, _, m, n => (m, n)
  | f + 1, y, m, n =>
    if n ≤ daysInMonth y m then (m, n) else ord2ymdMonth f y (m + 1) (n - daysInMonth y m)

/-- Inverse of `ymd2ord` (CPython `_ord2ymd`). -/
def ord2ymd (n : Nat) : Nat × Nat × Nat :=
  let p := ord2ymdYear 10050 1 n
  let q := ord2ymdMonth 11 p.1 1 p.2
  (p.1, q.1, q.2)

/-- Ordinal of the Monday starting ISO week 1 of `year`
(CPython `_isoweek1monday`). -/
def isoweek1monday (year : Nat) : Nat :=
  let firstday := ymd2ord year 1 1
  let firstweekday := (firstday + 6) % 7
  let week1monday := firstday - firstweekday
  if firstweekday > 3 then week1monday + 7 else week1monday

/-- Converts an ISO year/week/weekday triple to a Gregorian date, validating
ranges; the converted year is re-validated because the `datetime` constructor
rejects years outside 1..9999 (CPython `_isoweek_to_gregorian`). -/
def isoweekToGregorian (y w d : Nat) : Option (Nat × Nat × Nat) :=
  if ¬(1 ≤ y ∧ y ≤ 9999) then none
  else if ¬((0 < w ∧ w < 53) ∨
      (w = 53 ∧ (ymd2ord y 1 1 % 7 = 4 ∨ (ymd2ord y 1 1 % 7 = 3 ∧ isLeap y)))) then none
  else if ¬(0 < d ∧ d < 8) then none
  else
    let ordDay := isoweek1monday y + (w - 1) * 7 + (d - 1)
    let r := ord2ymd ordDay
    if 1 ≤ r.1 ∧ r.1 ≤ 9999 then some r else none

/-- Parses the date portion of an isoformat string: `YYYY-MM-DD`, `YYYYMMDD`,
`YYYY-Www[-D]` or `YYYYWww[D]`, consuming the whole input
(CPython `_parse_isoformat_date` with field validation by the constructor). -/
def parseIsoDate (l : List Char) : Option (Nat × Nat × Nat) := do
  let (y, r) ← takeDigits 4 l
  let (hasSep, r1) := match r with
    | '-' :: t => (true, t)
    | _ => (false, r)
  match r1 with
  | 'W' :: r2 => do
    let (w, r3) ← takeDigits 2 r2
    match r3 with
    | [] => isoweekToGregorian y w 1
    | _ => do
      let r4 ← if hasSep then
          (match r3 with | '-' :: t => some t | _ => none)
        else some r3
      let (d, r5) ← takeDigits 1 r4
      if r5 = [] then isoweekToGregorian y w d else none
  | _ => do
    let (m, r2) ← takeDigits 2 r1
    let r3 ← if hasSep then
        (match r2 with | '-' :: t => some t | _ => none)
      else some r2
    let (d, r4) ← takeDigits 2 r3
    if r4 = [] ∧ 1 ≤ y ∧ y ≤ 9999 ∧ 1 ≤ m ∧ m ≤ 12 ∧ 1 ≤ d ∧ d ≤ daysInMonth y m
    then some (y, m, d) else none

/-- Position of the date/time separator character in an isoformat string, from
characters 4 and 5 (CPython `_find_isoformat_datetime_separator`; only called
with strings of length at least 7). -/
def findSep (l : List Char) : Option Nat :=
  let n := l.length
  if n = 7 then some 7
  else if l.get? 4 = some '-' then
    if l.get? 5 = some 'W' then
      if n < 8 then none
      else if 8 < n ∧ l.get? 8 = some '-' then
        if n = 9 then none
        else if 10 < n ∧ (l.getD 10 ' ').isDigit then some 8
        else some 10
      else some 8
    else some 10
  else if l.get? 4 = some 'W' then
    let idx := 7 + ((l.drop 7).takeWhile Char.isDigit).length
    if idx < 9 then some idx
    else if idx % 2 = 0 then some 7
    else some 8
  else some 8

/-- Microsecond multiplier for a fraction of `k` digits
(CPython `_FRACTION_CORRECTION`). -/
def fractionCorrection : Nat → Nat
  | 1 => 100000
  | 2 => 10000
  | 3 => 1000
  | 4 => 100
  | 5 => 10
  | _ => 1

/-- Parses the fractional-second part: the first `min rem 6` characters must be
digits and are significant; the parser then skips any further digits.  With no
timezone marker following, nothing else may remain; directly before a timezone
marker (`dangling`) the C parser ignores whatever is left, accepting e.g.
`T09:00:00.123456xZ` while rejecting `T09:00:00.123456x`.  When the fraction
follows directly on the digits of the last component (`noSep`), at least two
characters must remain — the C parser rejects `T1230457` but accepts
`T12304578`. -/
def parseFrac (noSep dangling : Bool) (l : List Char) : Option Nat :=
  if l.isEmpty then none
  else if noSep ∧ l.length < 2 then none
  else
    let toParse := min l.length 6
    match takeDigits toParse l with
    | none => none
    | some (v, r) =>
      if dangling ∨ r.all Char.isDigit then some (v * fractionCorrection toParse)
      else none

/-- Parses the remaining time components (minute, then second) after the hour.
`k` counts the components still allowed, `hasSep` records whether the first
component was followed by a colon, and `dangling` allows the C parser's
acceptance of one leftover character directly before a timezone marker.
Returns the parsed components and the microseconds. -/
def timeComps (dangling hasSep : Bool) : Nat → List Char → Option (List Nat × Nat)
  | 0, _ => none
  | k + 1, l => do
    let (v, r) ← takeDigits 2 l
    match r with
    | [] => some ([v], 0)
    | c :: r1 =>
      if dangling ∧ r1 = [] then some ([v], 0)
      else if c = ':' then
        if ¬hasSep then none
        else if k = 0 then do
          let us ← parseFrac false dangling r1
          some ([v], us)
        else do
          let (vs, us) ← timeComps dangling hasSep k r1
          some (v :: vs, us)
      else if c = '.' ∨ c = ',' then do
        let us ← parseFrac false dangling r1
        some ([v], us)
      else if hasSep then none
      else if k = 0 then do
        let us ← parseFrac true dangling (c :: r1)
        some ([v], us)
      else do
        let (vs, us) ← timeComps dangling hasSep k (c :: r1)
        some (v :: vs, us)

/-- Parses `HH[:?MM[:?SS]]` with an optional fraction, consuming the whole
segment (CPython `parse_hh_mm_ss_ff`).  `dangling` is set for the segment
before a timezone marker, where the C parser swallows one trailing character. -/
def parseHMSF (dangling : Bool) (l : List Char) : Option (Nat × Nat × Nat × Nat) := do
  let (h, r) ← takeDigits 2 l
  match r with
  | [] => some (h, 0, 0, 0)
  | c :: r1 =>
    if dangling ∧ r1 = [] then some (h, 0, 0, 0)
    else if c = ':' then do
      let (vs, us) ← timeComps dangling true 2 r1
      some (h, vs.headD 0, (vs.drop 1).headD 0, us)
    else if c = '.' ∨ c = ',' then do
      let us ← parseFrac false dangling r1
      some (h, 0, 0, us)
    else do
      let (vs, us) ← timeComps dangling false 2 (c :: r1)
      some (h, vs.headD 0, (vs.drop 1).headD 0, us)

/-- Timezone marker characters searched for in the time string. -/
def isTzChar (c : Char) : Bool :=
  c = 'Z' || c = '+' || c = '-'

/-- Parses the time portion of an isoformat string, including an optional
timezone (CPython `_parse_isoformat_time` plus the range checks of the
`datetime` and `timezone` constructors).  Returns whether a timezone was
present. -/
def parseIsoTime (l : List Char) : Option Bool :=
  if l.length < 2 then none
  else
    let timestr := l.takeWhile (fun c => ¬ isTzChar c)
    let restWithMarker := l.dropWhile (fun c => ¬ isTzChar c)
    match restWithMarker with
    | [] =>
      match parseHMSF false timestr with
      | none => none
      | some (h, m, s, _) =>
        if h ≤ 23 ∧ m ≤ 59 ∧ s ≤ 59 then some false else none
    | marker :: rest =>
      match parseHMSF true timestr with
      | none => none
      | some (h, m, s, _) =>
        if ¬(h ≤ 23 ∧ m ≤ 59 ∧ s ≤ 59) then none
        else if marker = 'Z' then
          if rest = [] then some true else none
        else if rest.length = 0 ∨ rest.length = 1 ∨ rest.length = 3 then none
        else
          match parseHMSF false rest with
          | none => none
          | some (th, tm, ts, tus) =>
            if (th * 3600 + tm * 60 + ts) * 1000000 + tus < 86400000000
            then some true else none

/-- Shape of a successfully parsed isoformat string: a date alone, or a date
with a time whose timezone offset may or may not be present. -/
inductive IsoShape
  | dateOnly
  | dateTime (hasTz : Bool)
deriving DecidableEq, Repr

/-- Model of CPython 3.11 `datetime.fromisoformat`: `none` when the string is
rejected, otherwise the shape that was parsed. -/
def pyFromisoformat (s : String) : Option IsoShape :=
  let l := s.data
  let n := l.length
  if n < 7 then none
  else match findSep l with
    | none => none
    | some sep =>
      match parseIsoDate (l.take sep) with
      | none => none
      | some _ =>
        let tstr := l.drop (sep + 1)
        if tstr.isEmpty then
          if n ≤ sep then some .dateOnly else none
        else
          match parseIsoTime tstr with
          | none => none
          | some tz => some (.dateTime tz)

/-- Python `v.replace('Z', '+00:00')`, as applied by the date validators. -/
def replaceZ (s : String) : String :=
  ⟨s.data.flatMap fun c => if c = 'Z' then ['+', '0', '0', ':', '0', '0'] else [c]⟩

/-- The repository's date validator (`EventBase.validate_date` and
`EventUpdate.validate_date`): `datetime.fromisoformat(v.replace('Z', '+00:00'))`
succeeds. -/
def validate_date_ok (v : String) : Bool :=
  (pyFromisoformat (replaceZ v)).isSome

/-! ## Data model: DynamoDB items and the events table

A persisted record is a flat field-to-value mapping (`Item`); the table
(`Store`) maps the partition key `eventId` to an item.  Attribute values are
the ones this service writes: strings, numbers, and DynamoDB's NULL. -/

/-- A DynamoDB attribute value as used by this service. -/
inductive AttrVal
  | s (v : String)
  | n (v : Int)
  | null
deriving DecidableEq, Repr

/-- A stored record: a flat field-to-value mapping. -/
abbrev Item := List (String × AttrVal)

/-- The events table, keyed by `eventId`. -/
abbrev Store := List (String × Item)

/-- Value of attribute `k` in an item. -/
def getAttr (it : Item) (k : String) : Option AttrVal :=
  match it with
  | [] => none
  | (k', v) :: rest => if k' = k then some v else getAttr rest k

/-- Sets attribute `k` to `v` (DynamoDB `SET`): overwrites the existing
attribute or appends a new one. -/
def setAttr (it : Item) (k : String) (v : AttrVal) : Item :=
  match it with
  | [] => [(k, v)]
  | (k', v') :: rest => if k' = k then (k, v) :: rest else (k', v') :: setAttr rest k v

/-- Applies a list of `SET` actions in order. -/
def setAttrs (it : Item) (sets : List (String × AttrVal)) : Item :=
  sets.foldl (fun acc p => setAttr acc p.1 p.2) it

/-- DynamoDB `get_item`: the item stored under key `k`, if any. -/
def getIt (st : Store) (k : String) : Option Item :=
  match st with
  | [] => none
  | (k', it) :: rest => if k' = k then some it else getIt rest k

/-- DynamoDB `put_item`: unconditionally stores `it` under key `k`,
overwriting any existing item with that key. -/
def putIt (st : Store) (k : String) (it : Item) : Store :=
  match st with
  | [] => [(k, it)]
  | (k', it') :: rest => if k' = k then (k, it) :: rest else (k', it') :: putIt rest k it

/-- DynamoDB `delete_item`: removes the item under key `k`, if any. -/
def delIt (st : Store) (k : String) : Store :=
  match st with
  | [] => []
  | (k', it') :: rest => if k' = k then rest else (k', it') :: delIt rest k

/-- Number of records stored under key `k`. -/
def countKey (st : Store) (k : String) : Nat :=
  match st with
  | [] => 0
  | (k', _) :: rest => (if k' = k then 1 else 0) + countKey rest k

/-- A well-formed table has no duplicate partition-key values. -/
def StoreWf (st : Store) : Prop :=
  (st.map Prod.fst).Nodup

instance (st : Store) : Decidable (StoreWf st) :=
  inferInstanceAs (Decidable ((st.map Prod.fst).Nodup))

/-! ## Field validators (pydantic `Field` constraints and `@validator`s) -/

/-- `title`: 1-200 characters. -/
def validTitle (v : String) : Bool := 1 ≤ v.length && v.length ≤ 200

/-- `description`: 1-2000 characters. -/
def validDescription (v : String) : Bool := 1 ≤ v.length && v.length ≤ 2000

/-- `location`: 1-300 characters. -/
def validLocation (v : String) : Bool := 1 ≤ v.length && v.length ≤ 300

/-- `organizer`: 1-200 characters. -/
def validOrganizer (v : String) : Bool := 1 ≤ v.length && v.length ≤ 200

/-- `capacity`: an integer with `gt=0, le=100000`. -/
def validCapacity (v : Int) : Bool := 0 < v && v ≤ 100000

/-- `status`: membership in the five-value enumeration (`validate_status`). -/
def validStatus (v : String) : Bool :=
  v = "scheduled" || v = "ongoing" || v = "completed" || v = "cancelled" || v = "active"

/-! ## Request payloads -/

/-- The `EventCreate` request body.  `status` defaults to `"scheduled"` when
omitted (`none`); `eventId` is optional.  (A JSON `null` for `status` is
rejected by pydantic since that field is a non-optional `str`, so only
present-or-omitted is represented.) -/
structure EventCreate where
  title : String
  description : String
  date : String
  location : String
  capacity : Int
  organizer : String
  status : Option String := none
  eventId : Option String := none
deriving DecidableEq, Repr

/-- Validation of an `EventCreate` body, as pydantic performs it before the
handler runs.  The status validator runs on the defaulted value. -/
def validateEventCreate (p : EventCreate) : Bool :=
  validTitle p.title && validDescription p.description && validate_date_ok p.date &&
  validLocation p.location && validCapacity p.capacity && validOrganizer p.organizer &&
  validStatus (p.status.getD "scheduled")

/-- State of one field of a partial-update body: absent from the payload,
explicitly `null`, or present with a value.  pydantic's `exclude_unset`
distinguishes `unset` from the other two. -/
inductive UField (α : Type)
  | unset
  | null
  | val (v : α)
deriving DecidableEq, Repr

/-- The `EventUpdate` request body: every field optional. -/
structure EventUpdate where
  title : UField String := .unset
  description : UField String := .unset
  date : UField String := .unset
  location : UField String := .unset
  capacity : UField Int := .unset
  organizer : UField String := .unset
  status : UField String := .unset
deriving DecidableEq, Repr

/-- The empty partial payload `{}`. -/
def emptyUpdate : EventUpdate := {}

/-- Constraint check for one optional string field: pydantic applies the
constraint only to a non-`None` value, so `unset` and `null` both pass. -/
def okUStr (f : UField String) (valid : String → Bool) : Bool :=
  match f with
  | .unset => true
  | .null => true
  | .val v => valid v

/-- Validation of an `EventUpdate` body, as pydantic performs it before the
handler runs.  An explicitly `null` field passes every constraint (the
constrained types are `Optional`, and both `@validator`s guard on
`v is not None`). -/
def validateEventUpdate (u : EventUpdate) : Bool :=
  okUStr u.title validTitle && okUStr u.description validDescription &&
  okUStr u.date validate_date_ok && okUStr u.location validLocation &&
  (match u.capacity with
   | .unset => true
   | .null => true
   | .val v => validCapacity v) &&
  okUStr u.organizer validOrganizer && okUStr u.status validStatus

/-- Attribute value written for a set string field. -/
def uStrAttr (name : String) (f : UField String) : List (String × AttrVal) :=
  match f with
  | .unset => []
  | .null => [(name, .null)]
  | .val v => [(name, .s v)]

/-- Attribute value written for a set integer field. -/
def uIntAttr (name : String) (f : UField Int) : List (String × AttrVal) :=
  match f with
  | .unset => []
  | .null => [(name, .null)]
  | .val v => [(name, .n v)]

/-- `event_update.dict(exclude_unset=True)`: the fields actually supplied in
the payload, in model field order, with explicit `null`s included. -/
def updateData (u : EventUpdate) : List (String × AttrVal) :=
  uStrAttr "title" u.title ++ uStrAttr "description" u.description ++
  uStrAttr "date" u.date ++ uStrAttr "location" u.location ++
  uIntAttr "capacity" u.capacity ++
  uStrAttr "organizer" u.organizer ++ uStrAttr "status" u.status

/-! ## The `Event` response model -/

/-- The `Event` pydantic model: the six core fields plus `status` and
`eventId`.  It has no `createdAt` or `updatedAt` field. -/
structure EventOut where
  eventId : String
  title : String
  description : String
  date : String
  location : String
  capacity : Int
  organizer : String
  status : String
deriving DecidableEq, Repr

/-- JSON serialization of an `Event` response: exactly the declared fields. -/
def EventOut.toItem (e : EventOut) : Item :=
  [("eventId", .s e.eventId), ("title", .s e.title), ("description", .s e.description),
   ("date", .s e.date), ("location", .s e.location), ("capacity", .n e.capacity),
   ("organizer", .s e.organizer), ("status", .s e.status)]

/-- String value of attribute `k`, when it is a string. -/
def getStr (it : Item) (k : String) : Option String :=
  match getAttr it k with
  | some (.s v) => some v
  | _ => none

/-- Integer value of attribute `k`, when it is a number. -/
def getInt (it : Item) (k : String) : Option Int :=
  match getAttr it k with
  | some (.n v) => some v
  | _ => none

/-- Status value seen by `Event(**item)`: the attribute when it is a string,
the default `"scheduled"` when it is absent, and failure otherwise. -/
def statusOf (it : Item) : Option String :=
  match getAttr it "status" with
  | none => some "scheduled"
  | some (.s v) => some v
  | some _ => none

/-- `Event(**item)`: pydantic constructs an `Event` from the stored item,
ignoring extra attributes such as `createdAt` and `updatedAt`, defaulting a
missing `status` to `"scheduled"`, and re-running all field validation; a
missing, `null`, or invalid field makes construction fail. -/
def parseEvent (it : Item) : Option EventOut := do
  let id ← getStr it "eventId"
  let t ← getStr it "title"
  let dsc ← getStr it "description"
  let dt ← getStr it "date"
  let loc ← getStr it "location"
  let cap ← getInt it "capacity"
  let org ← getStr it "organizer"
  let stv ← statusOf it
  if validTitle t && validDescription dsc && validate_date_ok dt &&
     validLocation loc && validCapacity cap && validOrganizer org &&
     validStatus stv
  then some ⟨id, t, dsc, dt, loc, cap, org, stv⟩
  else none

/-! ## API results -/

/-- Typed errors surfaced by the handlers: input rejection (pydantic body
validation or the handler's 400s), a missing record (404), or an internal
failure (500). -/
inductive ApiError
  | validation (detail : String)
  | notFound (detail : String)
  | internal (detail : String)
deriving DecidableEq, Repr

/-- Outcome of a request: a JSON body or a typed error. -/
abbrev Resp := Except ApiError Item

instance {ε α : Type} [DecidableEq ε] [DecidableEq α] : DecidableEq (Except ε α)
  | .error e₁, .error e₂ =>
    if h : e₁ = e₂ then .isTrue (by rw [h])
    else .isFalse (fun hh => by cases hh; exact h rfl)
  | .error _, .ok _ => .isFalse (fun hh => Except.noConfusion hh)
  | .ok _, .error _ => .isFalse (fun hh => Except.noConfusion hh)
  | .ok a₁, .ok a₂ =>
    if h : a₁ = a₂ then .isTrue (by rw [h])
    else .isFalse (fun hh => by cases hh; exact h rfl)

/-- Python's `str.strip()`: the string with leading and trailing whitespace
removed.  The handlers' guard `not event_id or not event_id.strip()` is
equivalent to this being empty. -/
def pyStrip (s : String) : String :=
  ⟨((s.data.dropWhile Char.isWhitespace).reverse.dropWhile Char.isWhitespace).reverse⟩

/-- Detail label standing for FastAPI's 422 response to a body that fails
pydantic validation. -/
def bodyInvalid : String := "Invalid request body"

/-! ## Handlers -/

/-- `create_event`: validate the body, use the supplied `eventId` if it is
truthy (non-empty) or else the generated one, write the full record including
`createdAt` unconditionally, and return `Event(eventId=event_id, **event.dict(exclude=eventId))`.
`genId` stands for `str(uuid.uuid4())` and `now` for `datetime.utcnow().isoformat()`. -/
def create_event (genId now : String) (st : Store) (p : EventCreate) : Store × Resp :=
  if ¬ validateEventCreate p then (st, .error (.validation bodyInvalid))
  else
    let eid := match p.eventId with
      | some s => if s = "" then genId else s
      | none => genId
    let item : Item :=
      [("eventId", .s eid), ("title", .s p.title), ("description", .s p.description),
       ("date", .s p.date), ("location", .s p.location), ("capacity", .n p.capacity),
       ("organizer", .s p.organizer), ("status", .s (p.status.getD "scheduled")),
       ("createdAt", .s now)]
    let body := (EventOut.mk eid p.title p.description p.date p.location p.capacity
      p.organizer (p.status.getD "scheduled")).toItem
    (putIt st eid item, .ok body)

/-- `update_event`: pydantic validates the body before the handler runs; the
handler then rejects an empty identifier, checks existence, rejects an empty
field set, applies the supplied fields plus `updatedAt` to the stored item
(DynamoDB `update_item` with `ReturnValues=ALL_NEW`), and returns the new item
through the `Event` model.  If that re-validation fails the request is a 500,
but the store write has already happened. -/
def update_event (now : String) (st : Store) (eventId : String) (u : EventUpdate) :
    Store × Resp :=
  if ¬ validateEventUpdate u then (st, .error (.validation bodyInvalid))
  else if pyStrip eventId = "" then
    (st, .error (.validation "Event ID cannot be empty"))
  else
    match getIt st eventId with
    | none => (st, .error (.notFound "Event not found"))
    | some it =>
      let ud := updateData u
      if ud = [] then (st, .error (.validation "No fields to update"))
      else
        let newIt := setAttrs it (ud ++ [("updatedAt", .s now)])
        let st' := putIt st eventId newIt
        match parseEvent newIt with
        | some e => (st', .ok e.toItem)
        | none => (st', .error (.internal "An unexpected error occurred"))

/-- `delete_event`: reject an empty identifier, fail with a 404 when the
record is absent (issuing no deletion), and otherwise delete the record and
acknowledge. -/
def delete_event (st : Store) (eventId : String) : Store × Resp :=
  if pyStrip eventId = "" then
    (st, .error (.validation "Event ID cannot be empty"))
  else
    match getIt st eventId with
    | none => (st, .error (.notFound "Event not found"))
    | some _ =>
      (delIt st eventId, .ok [("message", .s "Event deleted successfully")])

/-! ## Spec-side date predicates (for the refinement claim about `validate_date`)

These two definitions follow the specification's wording: "a string is valid
if it can be parsed as either a plain calendar date or a full date-time with
an offset/zone marker". -/

theorem getAttr_setAttr_self (it : Item) (k : String) (v : AttrVal) :
    getAttr (setAttr it k v) k = some v := by
  induction it with
  | nil => simp [setAttr, getAttr]
  | cons b rest ih =>
    obtain ⟨bk, bv⟩ := b
    by_cases h : bk = k
    · simp [setAttr, getAttr, h]
    · simp [setAttr, getAttr, h, ih]

theorem getAttr_setAttr_ne (it : Item) (k k' : String) (v : AttrVal) (h : k' ≠ k) :
    getAttr (setAttr it k v) k' = getAttr it k' := by
  have hkk : ¬ (k = k') := fun hh => h hh.symm
  induction it with
  | nil => simp [setAttr, getAttr, hkk]
  | cons b rest ih =>
    obtain ⟨bk, bv⟩ := b
    by_cases hb : bk = k
    · subst hb
      simp [setAttr, getAttr, hkk]
    · by_cases hb' : bk = k'
      · simp [setAttr, getAttr, hb, hb', hkk, h]
      · simp [setAttr, getAttr, hb, hb', ih]

theorem setAttrs_append (it : Item) (a b : List (String × AttrVal)) :
    setAttrs it (a ++ b) = setAttrs (setAttrs it a) b :=
  List.foldl_append ..

theorem getAttr_setAttrs_not_mem (sets : List (String × AttrVal)) :
    ∀ (it : Item) (k : String), k ∉ sets.map Prod.fst →
      getAttr (setAttrs it sets) k = getAttr it k := by
  induction sets with
  | nil => intro it k _; rfl
  | cons p rest ih =>
    intro it k h
    simp only [List.map_cons, List.mem_cons] at h
    push_neg at h
    calc getAttr (setAttrs (setAttr it p.1 p.2) rest) k
        = getAttr (setAttr it p.1 p.2) k := ih _ _ h.2
      _ = getAttr it k := getAttr_setAttr_ne _ _ _ _ h.1

theorem getAttr_setAttrs_mem (sets : List (String × AttrVal)) :
    ∀ (it : Item) (k : String) (v : AttrVal), (k, v) ∈ sets →
      (sets.map Prod.fst).Nodup → getAttr (setAttrs it sets) k = some v := by
  induction sets with
  | nil => intro it k v hmem _; cases hmem
  | cons p rest ih =>
    intro it k v hmem hnd
    simp only [List.map_cons, List.nodup_cons] at hnd
    rcases List.mem_cons.mp hmem with h | h
    · cases h
      calc getAttr (setAttrs (setAttr it k v) rest) k
          = getAttr (setAttr it k v) k := getAttr_setAttrs_not_mem _ _ _ hnd.1
        _ = some v := getAttr_setAttr_self _ _ _
    · exact ih _ _ _ h hnd.2

theorem getIt_putIt_self (st : Store) (k : String) (it : Item) :
    getIt (putIt st k it) k = some it := by
  induction st with
  | nil => simp [putIt, getIt]
  | cons b rest ih =>
    obtain ⟨bk, bv⟩ := b
    by_cases h : bk = k
    · simp [putIt, getIt, h]
    · simp [putIt, getIt, h, ih]

theorem getIt_putIt_ne (st : Store) (k k' : String) (it : Item) (h : k' ≠ k) :
    getIt (putIt st k it) k' = getIt st k' := by
  have hkk : ¬ (k = k') := fun hh => h hh.symm
  induction st with
  | nil => simp [putIt, getIt, hkk]
  | cons b rest ih =>
    obtain ⟨bk, bv⟩ := b
    by_cases hb : bk = k
    · subst hb
      simp [putIt, getIt, hkk]
    · by_cases hb' : bk = k'
      · simp [putIt, getIt, hb, hb', hkk, h]
      · simp [putIt, getIt, hb, hb', ih]

theorem getIt_eq_none_of_not_mem (st : Store) (k : String)
    (h : k ∉ st.map Prod.fst) : getIt st k = none := by
  induction st with
  | nil => rfl
  | cons b rest ih =>
    obtain ⟨bk, bv⟩ := b
    simp only [List.map_cons, List.mem_cons] at h
    push_neg at h
    have hb : ¬ (bk = k) := fun hh => h.1 hh.symm
    simp [getIt, hb, ih h.2]

theorem getIt_delIt_self (st : Store) (k : String) (hwf : StoreWf st) :
    getIt (delIt st k) k = none := by
  induction st with
  | nil => rfl
  | cons b rest ih =>
    obtain ⟨bk, bv⟩ := b
    simp only [StoreWf, List.map_cons, List.nodup_cons] at hwf
    by_cases h : bk = k
    · subst h
      simp only [delIt, if_pos rfl]
      exact getIt_eq_none_of_not_mem _ _ hwf.1
    · simp only [delIt, if_neg h, getIt]
      exact ih hwf.2

theorem countKey_eq_zero_of_not_mem (st : Store) (k : String)
    (h : k ∉ st.map Prod.fst) : countKey st k = 0 := by
  induction st with
  | nil => rfl
  | cons b rest ih =>
    obtain ⟨bk, bv⟩ := b
    simp only [List.map_cons, List.mem_cons] at h
    push_neg at h
    have hb : ¬ (bk = k) := fun hh => h.1 hh.symm
    simp [countKey, hb, ih h.2]

theorem countKey_le_one_of_wf (st : Store) (k : String) (hwf : StoreWf st) :
    countKey st k ≤ 1 := by
  induction st with
  | nil => exact Nat.zero_le 1
  | cons b rest ih =>
    obtain ⟨bk, bv⟩ := b
    simp only [StoreWf, List.map_cons, List.nodup_cons] at hwf
    by_cases h : bk = k
    · subst h
      have h0 : countKey rest bk = 0 := countKey_eq_zero_of_not_mem _ _ hwf.1
      simp [countKey, h0]
    · simp only [countKey, if_neg h]
      simpa using ih hwf.2

theorem countKey_putIt_self (st : Store) (k : String) (it : Item)
    (h : countKey st k ≤ 1) : countKey (putIt st k it) k = 1 := by
  induction st with
  | nil => simp [putIt, countKey]
  | cons b rest ih =>
    obtain ⟨bk, bv⟩ := b
    by_cases hb : bk = k
    · subst hb
      have h0 : countKey rest bk = 0 := by
        simp [countKey] at h
        omega
      simp [putIt, countKey, h0]
    · simp only [countKey, if_neg hb] at h
      simp only [putIt, if_neg hb, countKey, if_neg hb]
      simpa using ih (by omega)

theorem uStrAttr_keys (n : String) (f : UField String) :
    ((uStrAttr n f).map Prod.fst).Sublist [n] := by
  cases f <;> simp [uStrAttr]

theorem uIntAttr_keys (n : String) (f : UField Int) :
    ((uIntAttr n f).map Prod.fst).Sublist [n] := by
  cases f <;> simp [uIntAttr]

/-- The field names of a partial payload's supplied set, in order, form a
sublist of the seven model field names. -/
theorem updateData_keys_sublist (u : EventUpdate) :
    ((updateData u).map Prod.fst).Sublist
      ["title", "description", "date", "location", "capacity", "organizer", "status"] := by
  show ((updateData u).map Prod.fst).Sublist
    ((((((["title"] ++ ["description"]) ++ ["date"]) ++ ["location"]) ++ ["capacity"])
      ++ ["organizer"]) ++ ["status"])
  unfold updateData
  simp only [List.map_append]
  exact ((((((uStrAttr_keys "title" u.title).append
    (uStrAttr_keys "description" u.description)).append
    (uStrAttr_keys "date" u.date)).append
    (uStrAttr_keys "location" u.location)).append
    (uIntAttr_keys "capacity" u.capacity)).append
    (uStrAttr_keys "organizer" u.organizer)).append
    (uStrAttr_keys "status" u.status)

theorem updateData_keys_nodup (u : EventUpdate) :
    ((updateData u).map Prod.fst).Nodup :=
  List.Nodup.sublist (updateData_keys_sublist u) (by decide)

theorem updateData_keys_ne_updatedAt (u : EventUpdate) (k : String)
    (h : k ∈ (updateData u).map Prod.fst) : k ≠ "updatedAt" := by
  have hmem := (updateData_keys_sublist u).subset h
  fin_cases hmem <;> decide

/-- Inversion of `Event(**item)`: a successfully constructed `Event` carries
exactly the item's core attribute values, with `status` defaulted to
`"scheduled"` when the attribute is absent. -/
theorem statusOf_inv (it : Item) (stv : String) (h : statusOf it = some stv) :
    (getAttr it "status" = none ∧ stv = "scheduled") ∨
      getAttr it "status" = some (.s stv) := by
  unfold statusOf at h
  cases hg : getAttr it "status" <;> rw [hg] at h
  · injection h with h'
    exact Or.inl ⟨rfl, h'.symm⟩
  · rename_i v
    cases v
    case s sv =>
      injection h with h'
      subst h'
      exact Or.inr rfl
    case n iv => exact Option.noConfusion h
    case null => exact Option.noConfusion h

/-- Splits a successful monadic bind on `Option` into its two steps. -/
theorem optBind_eq_some {α β : Type} {o : Option α} {f : α → Option β} {b : β}
    (h : o >>= f = some b) : ∃ a, o = some a ∧ f a = some b := by
  cases o with
  | none => exact Option.noConfusion h
  | some a => exact ⟨a, rfl, h⟩

/-- Inversion of `Event(**item)`: a successfully constructed `Event` carries
exactly the item's core attribute values, with `status` defaulted to
`"scheduled"` when the attribute is absent. -/
theorem parseEvent_inv (it : Item) (e : EventOut) (h : parseEvent it = some e) :
    getStr it "eventId" = some e.eventId ∧ getStr it "title" = some e.title ∧
    getStr it "description" = some e.description ∧ getStr it "date" = some e.date ∧
    getStr it "location" = some e.location ∧ getInt it "capacity" = some e.capacity ∧
    getStr it "organizer" = some e.organizer ∧
    ((getAttr it "status" = none ∧ e.status = "scheduled") ∨
      getAttr it "status" = some (.s e.status)) := by
  unfold parseEvent at h
  obtain ⟨id1, h1, h⟩ := optBind_eq_some h
  obtain ⟨t1, h2, h⟩ := optBind_eq_some h
  obtain ⟨dsc1, h3, h⟩ := optBind_eq_some h
  obtain ⟨dt1, h4, h⟩ := optBind_eq_some h
  obtain ⟨loc1, h5, h⟩ := optBind_eq_some h
  obtain ⟨cap1, h6, h⟩ := optBind_eq_some h
  obtain ⟨org1, h7, h⟩ := optBind_eq_some h
  obtain ⟨stv1, h8, h⟩ := optBind_eq_some h
  cases h9 : (validTitle t1 && validDescription dsc1 && validate_date_ok dt1 &&
      validLocation loc1 && validCapacity cap1 && validOrganizer org1 &&
      validStatus stv1) <;> rw [h9] at h
  · simp at h
  · rw [if_pos rfl] at h
    injection h with h'
    subst h'
    refine ⟨h1, h2, h3, h4, h5, h6, h7, ?_⟩
    exact statusOf_inv it stv1 h8

/-! ## Sample data used by the closed theorems -/

/-- The end-to-end scenario payload of the specification's §8. -/
def samplePayload : EventCreate :=
  { title := "Conf", description := "D", date := "2024-12-15",
    location := "HQ", capacity := 50, organizer := "Org" }

/-- The record that creating `samplePayload` with id `"e1"` at time `"T0"`
stores. -/
def sampleItem : Item :=
  [("eventId", .s "e1"), ("title", .s "Conf"), ("description", .s "D"),
   ("date", .s "2024-12-15"), ("location", .s "HQ"), ("capacity", .n 50),
   ("organizer", .s "Org"), ("status", .s "scheduled"), ("createdAt", .s "T0")]

/-- A one-record store. -/
def sampleStore : Store := [("e1", sampleItem)]

theorem sampleStore_eq_create :
    (create_event "e1" "T0" [] samplePayload).1 = sampleStore := by decide

/-! ## Success-path equations for the handlers -/

/-- The record `create_event` writes for a payload assigned id `eid`. -/
def createdItem (eid now : String) (p : EventCreate) : Item :=
  [("eventId", .s eid), ("title", .s p.title), ("description", .s p.description),
   ("date", .s p.date), ("location", .s p.location), ("capacity", .n p.capacity),
   ("organizer", .s p.organizer), ("status", .s (p.status.getD "scheduled")),
   ("createdAt", .s now)]

/-- The `Event` body `create_event` returns for a payload assigned id `eid`. -/
def createdBody (eid : String) (p : EventCreate) : Item :=
  (EventOut.mk eid p.title p.description p.date p.location p.capacity
    p.organizer (p.status.getD "scheduled")).toItem

/-- The identifier a create assigns: the supplied `eventId` when it is truthy
(present and non-empty), the generated one otherwise
(`event.eventId if event.eventId else str(uuid.uuid4())`). -/
def assignedId (genId : String) (p : EventCreate) : String :=
  match p.eventId with
  | some s => if s = "" then genId else s
  | none => genId

theorem create_event_eq_of_valid (genId now : String) (st : Store) (p : EventCreate)
    (hv : validateEventCreate p = true) :
    create_event genId now st p =
      (putIt st (assignedId genId p) (createdItem (assignedId genId p) now p),
       .ok (createdBody (assignedId genId p) p)) := by
  simp [create_event, assignedId, createdItem, createdBody, hv]

theorem create_event_eq_of_gen (genId now : String) (st : Store) (p : EventCreate)
    (hv : validateEventCreate p = true) (hpid : p.eventId = none) :
    create_event genId now st p =
      (putIt st genId (createdItem genId now p), .ok (createdBody genId p)) := by
  simp [create_event, hv, hpid, createdItem, createdBody]

theorem create_event_eq_of_supplied (genId now : String) (st : Store) (p : EventCreate)
    (id : String) (hv : validateEventCreate p = true) (hpid : p.eventId = some id)
    (hne : ¬ id = "") :
    create_event genId now st p =
      (putIt st id (createdItem id now p), .ok (createdBody id p)) := by
  simp [create_event, hv, hpid, hne, createdItem, createdBody]

/-- The record `update_event` writes: the stored item with the supplied fields
and `updatedAt` set. -/
def updatedItem (now : String) (u : EventUpdate) (it : Item) : Item :=
  setAttrs it (updateData u ++ [("updatedAt", .s now)])

theorem update_event_eq_of_success (now : String) (st : Store) (id : String)
    (u : EventUpdate) (it : Item) (e : EventOut)
    (hu : validateEventUpdate u = true) (hid : ¬ pyStrip id = "")
    (hit : getIt st id = some it) (hud : ¬ updateData u = [])
    (he : parseEvent (updatedItem now u it) = some e) :
    update_event now st id u = (putIt st id (updatedItem now u it), .ok e.toItem) := by
  unfold updatedItem at he
  simp [update_event, hu, hid, hit, hud, he, updatedItem]

theorem getAttr_updatedItem_updatedAt (now : String) (u : EventUpdate) (it : Item) :
    getAttr (updatedItem now u it) "updatedAt" = some (.s now) := by
  unfold updatedItem
  rw [setAttrs_append]
  exact getAttr_setAttr_self _ _ _

theorem getAttr_updatedItem_other (now : String) (u : EventUpdate) (it : Item)
    (k : String) (hk : k ∉ (updateData u).map Prod.fst) (hk2 : k ≠ "updatedAt") :
    getAttr (updatedItem now u it) k = getAttr it k := by
  unfold updatedItem
  rw [setAttrs_append]
  rw [show setAttrs (setAttrs it (updateData u)) [("updatedAt", AttrVal.s now)]
      = setAttr (setAttrs it (updateData u)) "updatedAt" (AttrVal.s now) from rfl]
  rw [getAttr_setAttr_ne _ _ _ _ hk2]
  exact getAttr_setAttrs_not_mem _ _ _ hk

theorem getAttr_updatedItem_supplied (now : String) (u : EventUpdate) (it : Item)
    (f : String) (v : AttrVal) (hmem : (f, v) ∈ updateData u) :
    getAttr (updatedItem now u it) f = some v := by
  unfold updatedItem
  rw [setAttrs_append]
  rw [show setAttrs (setAttrs it (updateData u)) [("updatedAt", AttrVal.s now)]
      = setAttr (setAttrs it (updateData u)) "updatedAt" (AttrVal.s now) from rfl]
  rw [getAttr_setAttr_ne _ _ _ _
    (updateData_keys_ne_updatedAt u f (List.mem_map_of_mem Prod.fst hmem))]
  exact getAttr_setAttrs_mem _ _ _ _ hmem (updateData_keys_nodup u)

/-! ## The claims -/

/-- C1: the claim says any field present in a partial update payload must
satisfy the same per-field constraint as create, so no accepted update can
write an out-of-range or null value into a stored record.  The code violates
this: the payload `{"title": null}` passes `EventUpdate` validation (pydantic
skips constraints on an explicit `None`), the handler writes `title = NULL`
into the store, and only the response-model re-validation fails afterwards
with a 500 — the store is left holding a record with a null `title`. -/
theorem update_null_title_poisons_store :
    validateEventUpdate { title := .null } = true ∧
    (update_event "T1" sampleStore "e1" { title := .null }).2 =
      .error (.internal "An unexpected error occurred") ∧
    ((getIt (update_event "T1" sampleStore "e1" { title := .null }).1 "e1").bind
      (fun it => getAttr it "title")) = some .null := by
  decide

/-- C2 counterexample: the claim says the record returned by a successful
create includes the `createdAt` timestamp that was stored.  Creating the §8
payload stores `createdAt = "T0"`, but the response body (the `Event` model)
has no `createdAt` key at all. -/
theorem create_response_omits_createdAt :
    ((getIt (create_event "e1" "T0" [] samplePayload).1 "e1").bind
      (fun it => getAttr it "createdAt")) = some (.s "T0") ∧
    (create_event "e1" "T0" [] samplePayload).2 = .ok (createdBody "e1" samplePayload) ∧
    getAttr (createdBody "e1" samplePayload) "createdAt" = none := by
  decide

/-- C2 (amended): every successful create returns the assigned `eventId`
(supplied when truthy, generated otherwise), the payload fields, and `status`
defaulted to `"scheduled"` when not supplied, while `createdAt` is stored but
stripped from the response; a successful update returns the post-mutation
values of the `Event` fields, while `updatedAt` is stored but stripped from
the response. -/
theorem create_update_returned_record
    (genId now : String) (st : Store) (p : EventCreate)
    (now' : String) (st' : Store) (id : String) (u : EventUpdate) (it : Item) (e : EventOut)
    (hp : validateEventCreate p = true)
    (hu : validateEventUpdate u = true) (hid : ¬ pyStrip id = "")
    (hit : getIt st' id = some it) (hud : ¬ updateData u = [])
    (he : parseEvent (updatedItem now' u it) = some e) :
    (create_event genId now st p).2 = .ok (createdBody (assignedId genId p) p) ∧
    getStr (createdBody (assignedId genId p) p) "eventId" = some (assignedId genId p) ∧
    getStr (createdBody (assignedId genId p) p) "status"
      = some (p.status.getD "scheduled") ∧
    ((getIt (create_event genId now st p).1 (assignedId genId p)).bind
      (fun itm => getAttr itm "createdAt")) = some (.s now) ∧
    getAttr (createdBody (assignedId genId p) p) "createdAt" = none ∧
    (update_event now' st' id u).2 = .ok e.toItem ∧
    ((getIt (update_event now' st' id u).1 id).bind
      (fun itm => getAttr itm "updatedAt")) = some (.s now') ∧
    getAttr e.toItem "updatedAt" = none := by
  have hc := create_event_eq_of_valid genId now st p hp
  have hup := update_event_eq_of_success now' st' id u it e hu hid hit hud he
  refine ⟨by rw [hc], ?_, ?_, ?_, ?_, by rw [hup], ?_, ?_⟩
  · rfl
  · rfl
  · rw [hc]
    show (getIt (putIt st (assignedId genId p) (createdItem (assignedId genId p) now p))
      (assignedId genId p)).bind (fun itm => getAttr itm "createdAt") = some (.s now)
    rw [getIt_putIt_self]
    rfl
  · rfl
  · rw [hup]
    show (getIt (putIt st' id (updatedItem now' u it)) id).bind
      (fun itm => getAttr itm "updatedAt") = some (.s now')
    rw [getIt_putIt_self]
    exact getAttr_updatedItem_updatedAt now' u it
  · simp [EventOut.toItem, getAttr]

/-- C2 witness: the create half on the empty store and the update half on the
one-record store, with `{capacity: 75}`. -/
theorem create_update_returned_record_witness :
    validateEventCreate samplePayload = true ∧
    ((create_event "g1" "T0" [] samplePayload).2 = .ok (createdBody "g1" samplePayload) ∧
     getStr (createdBody "g1" samplePayload) "eventId" = some "g1" ∧
     getStr (createdBody "g1" samplePayload) "status" = some "scheduled" ∧
     ((getIt (create_event "g1" "T0" [] samplePayload).1 "g1").bind
       (fun itm => getAttr itm "createdAt")) = some (.s "T0") ∧
     getAttr (createdBody "g1" samplePayload) "createdAt" = none ∧
     (update_event "T1" sampleStore "e1" { capacity := .val 75 }).2 =
       .ok ((EventOut.mk "e1" "Conf" "D" "2024-12-15" "HQ" 75 "Org" "scheduled").toItem) ∧
     ((getIt (update_event "T1" sampleStore "e1" { capacity := .val 75 }).1 "e1").bind
       (fun itm => getAttr itm "updatedAt")) = some (.s "T1") ∧
     getAttr ((EventOut.mk "e1" "Conf" "D" "2024-12-15" "HQ" 75 "Org" "scheduled").toItem)
       "updatedAt" = none) :=
  ⟨by decide,
   create_update_returned_record "g1" "T0" [] samplePayload "T1" sampleStore "e1"
     { capacity := .val 75 } sampleItem
     (EventOut.mk "e1" "Conf" "D" "2024-12-15" "HQ" 75 "Org" "scheduled")
     (by decide) (by decide) (by decide) rfl (by decide) (by decide)⟩

/-- C3 counterexample: the claim says every field other than those supplied —
including `createdAt` — keeps its value both in the store and in the returned
record.  Updating only `title` on the stored §8 record returns a body with no
`createdAt` key at all, so the returned record does not carry `createdAt`'s
value. -/
theorem update_response_omits_createdAt :
    ((getIt sampleStore "e1").bind (fun it => getAttr it "createdAt")) = some (.s "T0") ∧
    (update_event "T1" sampleStore "e1" { title := .val "New" }).2 =
      .ok ((EventOut.mk "e1" "New" "D" "2024-12-15" "HQ" 50 "Org" "scheduled").toItem) ∧
    getAttr ((EventOut.mk "e1" "New" "D" "2024-12-15" "HQ" 50 "Org" "scheduled").toItem)
      "createdAt" = none := by
  decide

/-- C3 (amended): a successful update writes exactly the supplied fields plus
`updatedAt` into the stored record, leaving every other stored attribute —
including `createdAt` — and every other record unchanged; the returned body
carries the post-mutation `Event` fields (so unsupplied core fields keep their
stored values), but `createdAt` and `updatedAt` are not part of the response. -/
theorem update_frame_property
    (now : String) (st : Store) (id : String) (u : EventUpdate) (it : Item)
    (e : EventOut) (k : String)
    (hu : validateEventUpdate u = true) (hid : ¬ pyStrip id = "")
    (hit : getIt st id = some it) (hud : ¬ updateData u = [])
    (he : parseEvent (updatedItem now u it) = some e)
    (hk : k ∉ (updateData u).map Prod.fst) (hk2 : k ≠ "updatedAt") :
    ((getIt (update_event now st id u).1 id).bind (fun itm => getAttr itm k))
      = getAttr it k ∧
    (∀ f v, (f, v) ∈ updateData u →
      ((getIt (update_event now st id u).1 id).bind (fun itm => getAttr itm f)) = some v) ∧
    ((getIt (update_event now st id u).1 id).bind (fun itm => getAttr itm "updatedAt"))
      = some (.s now) ∧
    (∀ id', id' ≠ id → getIt (update_event now st id u).1 id' = getIt st id') ∧
    (update_event now st id u).2 = .ok e.toItem ∧
    getStr (updatedItem now u it) "title" = some e.title ∧
    getInt (updatedItem now u it) "capacity" = some e.capacity ∧
    getAttr e.toItem "createdAt" = none ∧
    getAttr e.toItem "updatedAt" = none := by
  have hup := update_event_eq_of_success now st id u it e hu hid hit hud he
  have hinv := parseEvent_inv _ _ he
  refine ⟨?_, ?_, ?_, ?_, by rw [hup], hinv.2.1, hinv.2.2.2.2.2.1, ?_, ?_⟩
  · rw [hup]
    show (getIt (putIt st id (updatedItem now u it)) id).bind
      (fun itm => getAttr itm k) = getAttr it k
    rw [getIt_putIt_self]
    exact getAttr_updatedItem_other now u it k hk hk2
  · intro f v hmem
    rw [hup]
    show (getIt (putIt st id (updatedItem now u it)) id).bind
      (fun itm => getAttr itm f) = some v
    rw [getIt_putIt_self]
    exact getAttr_updatedItem_supplied now u it f v hmem
  · rw [hup]
    show (getIt (putIt st id (updatedItem now u it)) id).bind
      (fun itm => getAttr itm "updatedAt") = some (.s now)
    rw [getIt_putIt_self]
    exact getAttr_updatedItem_updatedAt now u it
  · intro id' hne
    rw [hup]
    exact getIt_putIt_ne _ _ _ _ hne
  · simp [EventOut.toItem, getAttr]
  · simp [EventOut.toItem, getAttr]

/-- C3 witness: updating only `title` on the stored §8 record leaves the
stored `capacity` and `createdAt` untouched. -/
theorem update_frame_property_witness :
    ("capacity" ∉ (updateData { title := .val "New" } : List (String × AttrVal)).map
      Prod.fst) ∧
    ((getIt (update_event "T1" sampleStore "e1" { title := .val "New" }).1 "e1").bind
      (fun itm => getAttr itm "capacity")) = getAttr sampleItem "capacity" :=
  ⟨by decide,
   (update_frame_property "T1" sampleStore "e1" { title := .val "New" } sampleItem
     (EventOut.mk "e1" "New" "D" "2024-12-15" "HQ" 50 "Org" "scheduled") "capacity"
     (by decide) (by decide) rfl (by decide) (by decide) (by decide) (by decide)).1⟩

/-- C5: creating with a supplied `eventId` equal to an existing record's key
succeeds with no uniqueness rejection and unconditionally overwrites that
record, leaving exactly one record under that key. -/
theorem create_duplicate_id_overwrites
    (genId now : String) (st : Store) (p : EventCreate) (id : String) (old : Item)
    (hv : validateEventCreate p = true) (hpid : p.eventId = some id) (hne : ¬ id = "")
    (_hold : getIt st id = some old) (hwf : StoreWf st) :
    (create_event genId now st p).2 = .ok (createdBody id p) ∧
    getIt (create_event genId now st p).1 id = some (createdItem id now p) ∧
    countKey (create_event genId now st p).1 id = 1 := by
  have hc := create_event_eq_of_supplied genId now st p id hv hpid hne
  refine ⟨by rw [hc], ?_, ?_⟩
  · rw [hc]
    exact getIt_putIt_self _ _ _
  · rw [hc]
    exact countKey_putIt_self _ _ _ (countKey_le_one_of_wf _ _ hwf)

/-- C5 witness: re-creating id `"e1"` over the stored §8 record. -/
theorem create_duplicate_id_overwrites_witness :
    getIt sampleStore "e1" = some sampleItem ∧
    getIt (create_event "g1" "T2" sampleStore
      { samplePayload with eventId := some "e1", title := "New" }).1 "e1" =
      some (createdItem "e1" "T2" { samplePayload with eventId := some "e1", title := "New" }) ∧
    countKey (create_event "g1" "T2" sampleStore
      { samplePayload with eventId := some "e1", title := "New" }).1 "e1" = 1 :=
  ⟨rfl,
   (create_duplicate_id_overwrites "g1" "T2" sampleStore
     { samplePayload with eventId := some "e1", title := "New" } "e1" sampleItem
     (by decide) rfl (by decide) rfl (by decide)).2.1,
   (create_duplicate_id_overwrites "g1" "T2" sampleStore
     { samplePayload with eventId := some "e1", title := "New" } "e1" sampleItem
     (by decide) rfl (by decide) rfl (by decide)).2.2⟩

/-- C6: for an identifier that is non-empty after trimming, deleting a missing
record fails with `NotFoundError` and leaves the store unchanged (no deletion
is issued), and deleting an existing record removes it and returns the
success acknowledgment. -/
theorem delete_semantics (st : Store) (id : String)
    (hid : ¬ pyStrip id = "") (hwf : StoreWf st) :
    (getIt st id = none → delete_event st id = (st, .error (.notFound "Event not found"))) ∧
    (∀ it, getIt st id = some it →
      delete_event st id =
        (delIt st id, .ok [("message", .s "Event deleted successfully")]) ∧
      getIt (delete_event st id).1 id = none) := by
  constructor
  · intro h
    simp [delete_event, hid, h]
  · intro it h
    constructor
    · simp [delete_event, hid, h]
    · have hd : (delete_event st id).1 = delIt st id := by
        simp [delete_event, hid, h]
      rw [hd]
      exact getIt_delIt_self _ _ hwf

/-- C6 witness: deleting the missing id `"zz"` and the present id `"e1"` on
the one-record store. -/
theorem delete_semantics_witness :
    getIt sampleStore "zz" = none ∧
    delete_event sampleStore "zz" = (sampleStore, .error (.notFound "Event not found")) ∧
    (delete_event sampleStore "e1" =
      (delIt sampleStore "e1", .ok [("message", .s "Event deleted successfully")]) ∧
     getIt (delete_event sampleStore "e1").1 "e1" = none) :=
  ⟨rfl,
   (delete_semantics sampleStore "zz" (by decide) (by decide)).1 rfl,
   (delete_semantics sampleStore "e1" (by decide) (by decide)).2 sampleItem rfl⟩

/-- C7: updating an existing record with the empty partial payload `{}` fails
with the `"No fields to update"` validation error and performs no store
write — the store is returned unchanged. -/
theorem update_empty_payload_rejected (now : String) (st : Store) (id : String)
    (it : Item) (hid : ¬ pyStrip id = "") (hit : getIt st id = some it) :
    update_event now st id emptyUpdate =
      (st, .error (.validation "No fields to update")) := by
  have h1 : validateEventUpdate emptyUpdate = true := by decide
  have h2 : updateData emptyUpdate = [] := by decide
  simp [update_event, h1, h2, hid, hit]

/-- C7 witness: the empty payload against the stored §8 record. -/
theorem update_empty_payload_rejected_witness :
    getIt sampleStore "e1" = some sampleItem ∧
    update_event "T1" sampleStore "e1" emptyUpdate =
      (sampleStore, .error (.validation "No fields to update")) :=
  ⟨rfl, update_empty_payload_rejected "T1" sampleStore "e1" sampleItem (by decide) rfl⟩

/-- C9: a valid create whose `eventId` is supplied as the empty string behaves
exactly like a create with no `eventId` (the empty string is falsy): it
succeeds, assigns and returns the generated identifier, and stores nothing
under the empty key. -/
theorem create_empty_eventId_generates
    (genId now : String) (st : Store) (p : EventCreate)
    (hv : validateEventCreate p = true) (hpid : p.eventId = some "")
    (hg : ¬ genId = "") :
    create_event genId now st p = create_event genId now st { p with eventId := none } ∧
    (create_event genId now st p).2 = .ok (createdBody genId p) ∧
    getStr (createdBody genId p) "eventId" = some genId ∧
    getIt (create_event genId now st p).1 genId = some (createdItem genId now p) ∧
    getIt (create_event genId now st p).1 "" = getIt st "" := by
  have hval2 : validateEventCreate { p with eventId := none } = validateEventCreate p := rfl
  have hc := create_event_eq_of_gen genId now st { p with eventId := none }
    (by rw [hval2]; exact hv) rfl
  have hsame : create_event genId now st p
      = create_event genId now st { p with eventId := none } := by
    simp [create_event, hval2, hpid]
  have hci : createdItem genId now { p with eventId := none } = createdItem genId now p := rfl
  have hcb : createdBody genId { p with eventId := none } = createdBody genId p := rfl
  refine ⟨hsame, ?_, ?_, ?_, ?_⟩
  · rw [hsame, hc, hcb]
  · simp [createdBody, EventOut.toItem, getStr, getAttr]
  · rw [hsame, hc, hci]
    exact getIt_putIt_self _ _ _
  · rw [hsame, hc]
    exact getIt_putIt_ne _ _ _ _ (fun hh => hg hh.symm)

/-- C9 witness: creating with `eventId := ""` on the one-record store assigns
the generated id `"g2"` and stores nothing under `""`. -/
theorem create_empty_eventId_generates_witness :
    validateEventCreate { samplePayload with eventId := some "" } = true ∧
    (getIt (create_event "g2" "T3" sampleStore
        { samplePayload with eventId := some "" }).1 "g2" =
      some (createdItem "g2" "T3" { samplePayload with eventId := some "" }) ∧
     getIt (create_event "g2" "T3" sampleStore
        { samplePayload with eventId := some "" }).1 "" = getIt sampleStore "") :=
  ⟨by decide,
   (create_empty_eventId_generates "g2" "T3" sampleStore
      { samplePayload with eventId := some "" } (by decide) rfl (by decide)).2.2.2.1,
   (create_empty_eventId_generates "g2" "T3" sampleStore
      { samplePayload with eventId := some "" } (by decide) rfl (by decide)).2.2.2.2⟩

/-- C10: request-body validation runs before the handler's existence check, so
an invalidly-valued field fails with the body `ValidationError` even when no
record exists; the empty-field-set check runs after the existence check, so
the empty payload `{}` against a missing identifier fails with
`NotFoundError`, not `"No fields to update"`. -/
theorem update_error_precedence (now : String) (st : Store) (id : String) (u : EventUpdate) :
    (validateEventUpdate u = false → getIt st id = none →
      update_event now st id u = (st, .error (.validation bodyInvalid))) ∧
    (¬ pyStrip id = "" → getIt st id = none →
      update_event now st id emptyUpdate = (st, .error (.notFound "Event not found"))) := by
  constructor
  · intro hval _
    simp [update_event, hval]
  · intro hid hnone
    have h1 : validateEventUpdate emptyUpdate = true := by decide
    simp [update_event, h1, hid, hnone]

/-- C10 witness: `{capacity: 0}` and `{}` against the missing id `"zz"`. -/
theorem update_error_precedence_witness :
    validateEventUpdate { capacity := .val 0 } = false ∧
    update_event "T1" sampleStore "zz" { capacity := .val 0 } =
      (sampleStore, .error (.validation bodyInvalid)) ∧
    update_event "T1" sampleStore "zz" emptyUpdate =
      (sampleStore, .error (.notFound "Event not found")) :=
  ⟨by decide,
   (update_error_precedence "T1" sampleStore "zz" { capacity := .val 0 }).1 (by decide) rfl,
   (update_error_precedence "T1" sampleStore "zz" { capacity := .val 0 }).2 (by decide) rfl⟩

end EventsApi
